import Mathlib

/-!
Verification development for the py-promptkit prompt-execution core
(`src/promptkit/runner.py` plus its data-model contracts).

The Python source is shallowly embedded:
* dataclasses / TypedDicts become Lean structures;
* methods become Lean functions; mutation of `self` is modelled by
  returning the updated state;
* Python exceptions become an explicit `Except PKError` result;
* Python `float` temperatures are modelled as exact rationals (`ℚ`);
  every Python float is an exact dyadic rational, so this is a faithful
  superset of the float domain;
* the side effects the specification talks about (hook dispatches and
  client invocations) are recorded in an explicit event trace.
-/

namespace PromptKit

/-- Errors of `src/promptkit/errors.py`, plus opaque exceptions raised by a
client's `generate` / `stream_generate` (`clientError`) and by hook
observers (`hookError`); Python exception *identity* is modelled by the
tag value. -/
inductive PKError where
  | promptConfigError (msg : String)
  | promptValidationError (msg : String)
  | promptProviderError (msg : String)
  | clientError (tag : String)
  | hookError (tag : String)
deriving DecidableEq, Repr

/-- `ToolSpecification` of `src/promptkit/models/clients.py`: a
`TypedDict` with `total=False`, i.e. every field optional; the schema
document `parameters` is opaque to the core and modelled as key/value
pairs. -/
structure ToolSpecification where
  name : Option String := none
  description : Option String := none
  parameters : Option (List (String × String)) := none
  type : Option String := none
  url : Option String := none
deriving DecidableEq, Repr

/-- `LLMResponse` of `src/promptkit/models/clients.py`. -/
structure LLMResponse where
  reasoning : String
  output : String
deriving DecidableEq, Repr

/-- Modelled from the spec: `src/promptkit/models/config.py` is absent
from the sources.  §3 of the spec: a `ModelConfig` carries the provider
identifier, model identifier, temperature and a `structured` flag (the
optional tool configuration is surfaced through
`PromptDefinition.build_tools` below, which is how the runner consumes
it). -/
structure ModelConfig where
  provider : String
  model : String
  temperature : ℚ
  structured : Bool
deriving DecidableEq, Repr

/-- Modelled from the spec: `src/promptkit/models/hooks.py` is absent
from the sources.  §3: an immutable snapshot containing prompt name,
model configuration, normalized variables, rendered prompt and resolved
tools. -/
structure HookContext where
  prompt_name : String
  model : ModelConfig
  vars : List (String × String)
  rendered_prompt : String
  tools : Option (List ToolSpecification)
deriving DecidableEq, Repr

/-- Modelled from the spec: `src/promptkit/models/hooks.py` is absent
from the sources.  §4.3 / §6: an observer optionally implementing
`beforeRun`, `afterRun`, `onError`; any handler may raise, which is
modelled by an `Except` result. -/
structure PromptHook where
  before_run : HookContext → Except PKError Unit
  after_run : HookContext → LLMResponse → Except PKError Unit
  on_error : HookContext → PKError → Except PKError Unit

/-- `LLMClient` protocol of `src/promptkit/models/clients.py`.
`generate` may raise (modelled by `Except`); `stream_generate` yields a
finite sequence of chunks and may raise mid-sequence, modelled as the
chunks yielded before the failure paired with the optional failure. -/
structure LLMClient where
  model : String
  temperature : ℚ
  supports_tools : Bool
  generate : String → Option (List ToolSpecification) → Except PKError LLMResponse
  stream_generate : String → Option (List ToolSpecification) → List String × Option PKError

/-- Modelled from the spec: `src/promptkit/loader.py` is absent from the
sources.  §6: `PromptDefinition.renderWith(variables)` yields
`(text, normalizedVariables)` or fails with a validation error;
`PromptDefinition.buildTools()` yields the configured tool list. -/
structure PromptDefinition where
  model : ModelConfig
  render_with : List (String × String) → Except PKError (String × List (String × String))
  build_tools : List ToolSpecification

/-- Modelled from the spec: `src/promptkit/loader.py` is absent from the
sources.  §6: `get(name)` returns the `PromptDefinition` or fails with a
not-found error. -/
structure PromptLoader where
  get : String → Except PKError PromptDefinition

/-! ### Python string normalization

`provider.strip().lower()` is modelled over the string's character list
(ASCII case mapping and ASCII whitespace, which is what the providers
this library normalizes consist of). -/

/-- `str.lower` on one character (ASCII model). -/
def py_lower_char (c : Char) : Char :=
  if 'A' ≤ c ∧ c ≤ 'Z' then Char.ofNat (c.toNat + 32) else c

/-- `s.lower()` (ASCII model). -/
def py_lower (s : String) : String :=
  ⟨s.data.map py_lower_char⟩

/-- The whitespace stripped by `str.strip()` (ASCII subset). -/
def py_is_space (c : Char) : Bool :=
  c = ' ' || c = '\t' || c = '\n' || c = '\r' || c = '\x0b' || c = '\x0c'

/-- `s.strip()`. -/
def py_strip (s : String) : String :=
  ⟨((s.data.dropWhile py_is_space).reverse.dropWhile py_is_space).reverse⟩

/-- `provider.strip().lower()`, the provider-key normalization. -/
def normalize_provider (provider : String) : String :=
  py_lower (py_strip provider)

/-! ### Association-list maps

Python `dict`s (`PromptCache._store`, `PromptRunner._clients`) are
modelled as association lists with unique keys: lookup finds the entry,
assignment overwrites in place or appends. -/

/-- `store.get(key)` on a Python dict. -/
def assoc_get {κ α : Type} [DecidableEq κ] (store : List (κ × α)) (key : κ) : Option α :=
  (store.find? (fun kv => decide (kv.1 = key))).map (fun kv => kv.2)

/-- `store[key] = value` on a Python dict: overwrite in place if the key
is present (dicts keep insertion position on overwrite), else append. -/
def assoc_set {κ α : Type} [DecidableEq κ] : List (κ × α) → κ → α → List (κ × α)
  | [], key, value => [(key, value)]
  | kv :: rest, key, value =>
    if kv.1 = key then (key, value) :: rest else kv :: assoc_set rest key value

/-! ### Cache key derivation (`PromptCache.build_key`) -/

/-- Python's `round(t, 3)` on an exact value, as the integer number of
thousandths: round to nearest, ties to the even integer. -/
def round3 (t : ℚ) : ℤ :=
  let x : ℚ := t * 1000
  let f : ℤ := ⌊x⌋
  let frac : ℚ := x - f
  if frac < 1 / 2 then f
  else if 1 / 2 < frac then f + 1
  else if f % 2 = 0 then f else f + 1

/-- The order used by Python's `sorted(variables.items())`: lexicographic
on the (key, value) pair. -/
def pairLe (a b : String × String) : Prop :=
  a.1 < b.1 ∨ (a.1 = b.1 ∧ a.2 ≤ b.2)

instance : DecidableRel pairLe := fun a b => by
  unfold pairLe; infer_instance

instance : IsTotal (String × String) pairLe := by
  constructor
  intro a b
  rcases lt_trichotomy a.1 b.1 with h | h | h
  · exact Or.inl (Or.inl h)
  · rcases le_total a.2 b.2 with h2 | h2
    · exact Or.inl (Or.inr ⟨h, h2⟩)
    · exact Or.inr (Or.inr ⟨h.symm, h2⟩)
  · exact Or.inr (Or.inl h)

instance : IsTrans (String × String) pairLe := by
  constructor
  intro a b c hab hbc
  rcases hab with h1 | ⟨h1, h1v⟩
  · rcases hbc with h2 | ⟨h2, _⟩
    · exact Or.inl (h1.trans h2)
    · exact Or.inl (h2 ▸ h1)
  · rcases hbc with h2 | ⟨h2, h2v⟩
    · exact Or.inl (h1 ▸ h2)
    · exact Or.inr ⟨h1.trans h2, h1v.trans h2v⟩

instance : IsAntisymm (String × String) pairLe := by
  constructor
  intro a b hab hba
  rcases hab with h1 | ⟨h1, h1v⟩
  · rcases hba with h2 | ⟨h2, _⟩
    · exact absurd h2 (lt_asymm h1)
    · exact absurd h2.symm (ne_of_lt h1)
  · rcases hba with h2 | ⟨h2, h2v⟩
    · exact absurd h1.symm (ne_of_lt h2)
    · exact Prod.ext h1 (le_antisymm h1v h2v)

/-- `sorted(variables.items())`. -/
def sortPairs (l : List (String × String)) : List (String × String) :=
  List.insertionSort pairLe l

/-- The canonical record serialized by `PromptCache.build_key`:
`{"prompt": …, "model": …, "provider": …, "temperature": round(t, 3),
"variables": dict(sorted(…))}`.  The source then applies
`json.dumps(…, sort_keys=True, ensure_ascii=True)` — injective on these
records — followed by `sha256(…).hexdigest()`; the model works at the
canonical-record level, so key equality below corresponds to byte
equality of the hex digests, and key inequality to digest inequality
modulo SHA-256 collisions. -/
structure CacheKeyPayload where
  prompt : String
  model : String
  provider : String
  temperature : ℤ
  vars : List (String × String)
deriving DecidableEq, Repr

/-- `PromptCache.build_key` (runner.py lines 36–53). -/
def build_key (prompt : String) (model_name : String) (provider : String)
    (temperature : ℚ) (vars : List (String × String)) : CacheKeyPayload :=
  { prompt := prompt
    model := model_name
    provider := provider
    temperature := round3 temperature
    vars := sortPairs vars }

/-- `PromptCache.get` (runner.py lines 55–57). -/
def cache_get (store : List (CacheKeyPayload × String)) (key : CacheKeyPayload) :
    Option String :=
  assoc_get store key

/-- `PromptCache.set` (runner.py lines 59–61). -/
def cache_set (store : List (CacheKeyPayload × String)) (key : CacheKeyPayload)
    (value : String) : List (CacheKeyPayload × String) :=
  assoc_set store key value

/-! ### Hook dispatch

Modelled from the spec: `src/promptkit/models/hooks.py` (`HookManager`)
is absent from the sources.  §4.3: each dispatch point invokes every
registered observer's handler in registration order, synchronously; an
observer raising is not caught — it aborts the remaining observers and
propagates. -/

/-- `HookManager.before_run`. -/
def dispatch_before : List PromptHook → HookContext → Except PKError Unit
  | [], _ => Except.ok ()
  | h :: rest, ctx =>
    match h.before_run ctx with
    | Except.error e => Except.error e
    | Except.ok _ => dispatch_before rest ctx

/-- `HookManager.after_run`. -/
def dispatch_after : List PromptHook → HookContext → LLMResponse → Except PKError Unit
  | [], _, _ => Except.ok ()
  | h :: rest, ctx, resp =>
    match h.after_run ctx resp with
    | Except.error e => Except.error e
    | Except.ok _ => dispatch_after rest ctx resp

/-- `HookManager.on_error`. -/
def dispatch_error : List PromptHook → HookContext → PKError → Except PKError Unit
  | [], _, _ => Except.ok ()
  | h :: rest, ctx, err =>
    match h.on_error ctx err with
    | Except.error e => Except.error e
    | Except.ok _ => dispatch_error rest ctx err

/-- No registered observer ever raises from any handler (the well-behaved
case the specification's hook-ordering sentences describe). -/
def HooksNeverRaise (hooks : List PromptHook) : Prop :=
  ∀ h ∈ hooks,
    (∀ c, h.before_run c = Except.ok ()) ∧
    (∀ c resp, h.after_run c resp = Except.ok ()) ∧
    (∀ c e, h.on_error c e = Except.ok ())

/-! ### The runner (`PromptRunner`, runner.py lines 64–236) -/

/-- `_ExecutionPlan` (runner.py lines 16–27).  The source stores the
sentinel `cache_key = ""` for streaming plans; the model uses `none`. -/
structure ExecutionPlan where
  cache_key : Option CacheKeyPayload
  context : HookContext
  client : LLMClient
  definition : PromptDefinition
  rendered_prompt : String
  vars : List (String × String)
  tools : Option (List ToolSpecification)

/-- `PromptRunner` state: the loader, the cache store
(`PromptCache._store`), the registered hooks (`HookManager`) and the
client registry (`PromptRunner._clients`). -/
structure PromptRunner where
  loader : PromptLoader
  cache : List (CacheKeyPayload × String)
  hooks : List PromptHook
  clients : List (String × LLMClient)

/-- `PromptRunner.register_client` (runner.py lines 80–85); the updated
registry is returned alongside the error, so "registry unmodified on
failure" is explicit. -/
def register_client (clients : List (String × LLMClient)) (provider : String)
    (client : LLMClient) : List (String × LLMClient) × Option PKError :=
  let provider_key := normalize_provider provider
  if provider_key = "" then
    (clients, some (PKError.promptProviderError "Provider key must be a non-empty string."))
  else
    (assoc_set clients provider_key client, none)

/-- `PromptRunner._resolve_client` (runner.py lines 196–202). -/
def resolve_client (clients : List (String × LLMClient)) (provider : String) :
    Except PKError LLMClient :=
  let key := normalize_provider provider
  match assoc_get clients key with
  | none => Except.error (PKError.promptProviderError
      ("No LLM client registered for provider '" ++ provider ++ "'."))
  | some c => Except.ok c

/-- `PromptRunner._resolve_tools` (runner.py lines 204–221).  Python's
truthiness test `if override_tools` / `if configured` is emptiness of the
list. -/
def resolve_tools (definition : PromptDefinition) (client : LLMClient)
    (override_tools : Option (List ToolSpecification)) :
    Except PKError (Option (List ToolSpecification)) :=
  match override_tools with
  | some ts =>
    if ts ≠ [] ∧ client.supports_tools = false then
      Except.error (PKError.promptProviderError
        ("Client '" ++ client.model ++ "' does not support tool execution."))
    else Except.ok (some ts)
  | none =>
    let configured := definition.build_tools
    if configured ≠ [] ∧ client.supports_tools = false then
      Except.error (PKError.promptProviderError
        ("Client '" ++ client.model ++ "' does not support configured tools."))
    else Except.ok (some configured)

/-- `PromptRunner._tools_argument` (runner.py lines 223–228): `None`
passes through, a sequence is copied into a list. -/
def tools_argument (tools : Option (List ToolSpecification)) :
    Option (List ToolSpecification) :=
  match tools with
  | none => none
  | some ts => some ts

/-- `PromptRunner._extract_output` (runner.py lines 230–232). -/
def extract_output (response : LLMResponse) : String :=
  response.output

/-- `PromptRunner._build_execution_plan` (runner.py lines 156–194); each
fallible step propagates its error unchanged (an explicit `match` per
Python call that may raise). -/
def build_execution_plan (r : PromptRunner) (prompt_name : String)
    (vars : List (String × String)) (tools : Option (List ToolSpecification))
    (streaming : Bool) : Except PKError ExecutionPlan :=
  match r.loader.get prompt_name with
  | Except.error e => Except.error e
  | Except.ok definition =>
    if streaming && definition.model.structured then
      Except.error (PKError.promptValidationError
        "Streaming is not supported for structured prompts.")
    else
      match definition.render_with vars with
      | Except.error e => Except.error e
      | Except.ok rendered =>
        match resolve_client r.clients definition.model.provider with
        | Except.error e => Except.error e
        | Except.ok client =>
          match resolve_tools definition client tools with
          | Except.error e => Except.error e
          | Except.ok resolved_tools =>
            let cache_key : Option CacheKeyPayload :=
              if streaming then none
              else some (build_key prompt_name client.model definition.model.provider
                client.temperature rendered.2)
            let context : HookContext :=
              { prompt_name := prompt_name
                model := definition.model
                vars := rendered.2
                rendered_prompt := rendered.1
                tools := resolved_tools }
            Except.ok { cache_key := cache_key
                        context := context
                        client := client
                        definition := definition
                        rendered_prompt := rendered.1
                        vars := rendered.2
                        tools := resolved_tools }

/-- Observable effects of one invocation, in program order: the three
hook dispatch points of the runner and the client interactions. -/
inductive Event where
  | beforeRun (ctx : HookContext)
  | afterRun (ctx : HookContext) (resp : LLMResponse)
  | onError (ctx : HookContext) (e : PKError)
  | generateCall (prompt : String) (tools : Option (List ToolSpecification))
  | streamCall (prompt : String) (tools : Option (List ToolSpecification))
deriving DecidableEq, Repr

/-- Result of `PromptRunner.run`: the returned output (or the propagated
exception), the cache store after the call, and the event trace. -/
structure RunOutcome where
  result : Except PKError String
  cache : List (CacheKeyPayload × String)
  events : List Event
deriving Repr

/-- `PromptRunner.run` (runner.py lines 87–121). -/
def run (r : PromptRunner) (prompt_name : String) (vars : List (String × String))
    (tools : Option (List ToolSpecification)) (use_cache : Bool) : RunOutcome :=
  match build_execution_plan r prompt_name vars tools false with
  | Except.error e => { result := Except.error e, cache := r.cache, events := [] }
  | Except.ok plan =>
    let ctx := plan.context
    match dispatch_before r.hooks ctx with
    | Except.error e =>
      { result := Except.error e, cache := r.cache, events := [Event.beforeRun ctx] }
    | Except.ok _ =>
      let cached : Option String :=
        if use_cache then
          match plan.cache_key with
          | some k => cache_get r.cache k
          | none => none
        else none
      match cached with
      | some value =>
        { result := Except.ok value, cache := r.cache, events := [Event.beforeRun ctx] }
      | none =>
        let genEv := Event.generateCall plan.rendered_prompt (tools_argument plan.tools)
        match plan.client.generate plan.rendered_prompt (tools_argument plan.tools) with
        | Except.error exc =>
          let evs := [Event.beforeRun ctx, genEv, Event.onError ctx exc]
          match dispatch_error r.hooks ctx exc with
          | Except.error e2 => { result := Except.error e2, cache := r.cache, events := evs }
          | Except.ok _ => { result := Except.error exc, cache := r.cache, events := evs }
        | Except.ok response =>
          let output := extract_output response
          let cache2 :=
            if use_cache then
              match plan.cache_key with
              | some k => cache_set r.cache k output
              | none => r.cache
            else r.cache
          let evs := [Event.beforeRun ctx, genEv, Event.afterRun ctx response]
          match dispatch_after r.hooks ctx response with
          | Except.error e2 => { result := Except.error e2, cache := cache2, events := evs }
          | Except.ok _ => { result := Except.ok output, cache := cache2, events := evs }

/-- The generator object returned by calling `PromptRunner.run_stream`
(runner.py lines 123–150).  The source is a Python generator function:
calling it only captures the arguments and builds the generator; the
body does not start executing until the caller requests the first
element. -/
structure StreamGen where
  runner : PromptRunner
  prompt_name : String
  vars : List (String × String)
  tools : Option (List ToolSpecification)

/-- `PromptRunner.run_stream` — the call itself (runner.py lines
123–135 up to the first `yield` are *not* executed here): it returns the
generator object and performs no observable work. -/
def run_stream (r : PromptRunner) (prompt_name : String)
    (vars : List (String × String)) (tools : Option (List ToolSpecification)) :
    StreamGen × List Event :=
  ({ runner := r, prompt_name := prompt_name, vars := vars, tools := tools }, [])

/-- Result of driving the generator of `run_stream` to completion:
chunks yielded to the consumer, the exception raised to the consumer at
the point of failure (if any), the cache store afterwards, and the event
trace. -/
structure StreamOutcome where
  chunks : List String
  error : Option PKError
  cache : List (CacheKeyPayload × String)
  events : List Event
deriving Repr

/-- Body of the `PromptRunner.run_stream` generator (runner.py lines
123–150), executed when the consumer iterates: build the streaming plan,
dispatch `before_run`, forward each chunk while accumulating it, then
either dispatch `on_error` and re-raise, or synthesize
`{"reasoning": "", "output": "".join(collected)}` and dispatch
`after_run`.  The cache is never touched. -/
def run_stream_exec (g : StreamGen) : StreamOutcome :=
  match build_execution_plan g.runner g.prompt_name g.vars g.tools true with
  | Except.error e =>
    { chunks := [], error := some e, cache := g.runner.cache, events := [] }
  | Except.ok plan =>
    let ctx := plan.context
    match dispatch_before g.runner.hooks ctx with
    | Except.error e =>
      { chunks := [], error := some e, cache := g.runner.cache
        events := [Event.beforeRun ctx] }
    | Except.ok _ =>
      let sEv := Event.streamCall plan.rendered_prompt (tools_argument plan.tools)
      let streamed := plan.client.stream_generate plan.rendered_prompt
        (tools_argument plan.tools)
      match streamed.2 with
      | some exc =>
        let evs := [Event.beforeRun ctx, sEv, Event.onError ctx exc]
        match dispatch_error g.runner.hooks ctx exc with
        | Except.error e2 =>
          { chunks := streamed.1, error := some e2, cache := g.runner.cache, events := evs }
        | Except.ok _ =>
          { chunks := streamed.1, error := some exc, cache := g.runner.cache, events := evs }
      | none =>
        let response : LLMResponse := { reasoning := "", output := String.join streamed.1 }
        let evs := [Event.beforeRun ctx, sEv, Event.afterRun ctx response]
        match dispatch_after g.runner.hooks ctx response with
        | Except.error e2 =>
          { chunks := streamed.1, error := some e2, cache := g.runner.cache, events := evs }
        | Except.ok _ =>
          { chunks := streamed.1, error := none, cache := g.runner.cache, events := evs }

/-- Projection of a trace onto the hook dispatch events. -/
def isHookEvent : Event → Bool
  | Event.beforeRun _ => true
  | Event.afterRun _ _ => true
  | Event.onError _ _ => true
  | _ => false

/-- The hook dispatches of a trace, in order. -/
def hookTrace (evs : List Event) : List Event :=
  evs.filter isHookEvent

/-- Number of client `generate` invocations in a trace. -/
def generateCount (evs : List Event) : Nat :=
  (evs.filter (fun e => match e with
    | Event.generateCall _ _ => true
    | _ => false)).length

/-! ### Concrete instances (used by witnesses and counterexamples)

The clients mirror `tests/utils.py` (`EchoClient`, `FailingClient`),
equipped with the `model`/`temperature` attributes the runner reads. -/

/-- An observer that never raises. -/
def okHook : PromptHook :=
  { before_run := fun _ => Except.ok ()
    after_run := fun _ _ => Except.ok ()
    on_error := fun _ _ => Except.ok () }

/-- A client that echoes the prompt back. -/
def echoClient : LLMClient :=
  { model := "m1", temperature := 0, supports_tools := false
    generate := fun p _ => Except.ok { reasoning := "echo", output := p }
    stream_generate := fun p _ => ([p], none) }

/-- A client whose `generate` / `stream_generate` always raise. -/
def failClient : LLMClient :=
  { model := "m2", temperature := 0, supports_tools := false
    generate := fun _ _ => Except.error (PKError.clientError "boom")
    stream_generate := fun _ _ => ([], some (PKError.clientError "boom")) }

/-- A sample tool specification. -/
def toolSpec1 : ToolSpecification :=
  { name := some "lookup", description := some "d" }

/-- An unstructured prompt definition rendering to a constant greeting. -/
def greetDef : PromptDefinition :=
  { model := { provider := "prov", model := "m1", temperature := 0, structured := false }
    render_with := fun vs => Except.ok ("Hello, Ada!", vs)
    build_tools := [] }

/-- A prompt definition with `structured=true`. -/
def structuredDef : PromptDefinition :=
  { model := { provider := "prov", model := "m1", temperature := 0, structured := true }
    render_with := fun vs => Except.ok ("body", vs)
    build_tools := [] }

/-- A loader knowing the prompts `greet` and `structured`. -/
def testLoader : PromptLoader :=
  { get := fun name =>
      if name = "greet" then Except.ok greetDef
      else if name = "structured" then Except.ok structuredDef
      else Except.error (PKError.promptConfigError "not found") }

/-- Runner with the echo client registered for provider `prov`. -/
def testRunner : PromptRunner :=
  { loader := testLoader, cache := [], hooks := [okHook]
    clients := [("prov", echoClient)] }

/-- Runner with the failing client registered for provider `prov`. -/
def failRunner : PromptRunner :=
  { loader := testLoader, cache := [], hooks := [okHook]
    clients := [("prov", failClient)] }

/-- `testRunner` with the `greet` output already cached. -/
def cachedRunner : PromptRunner :=
  { testRunner with cache := [(build_key "greet" "m1" "prov" 0 [], "cached!")] }

/-- The hook context produced for the `greet` prompt with no variables. -/
def greetCtx : HookContext :=
  { prompt_name := "greet", model := greetDef.model, vars := []
    rendered_prompt := "Hello, Ada!", tools := some [] }

/-- The plan `run` builds for `greet` on `testRunner`. -/
def greetPlan : ExecutionPlan :=
  { cache_key := some (build_key "greet" "m1" "prov" 0 [])
    context := greetCtx, client := echoClient, definition := greetDef
    rendered_prompt := "Hello, Ada!", vars := [], tools := some [] }

/-- The plan `run` builds for `greet` on `failRunner`. -/
def failPlan : ExecutionPlan :=
  { cache_key := some (build_key "greet" "m2" "prov" 0 [])
    context := greetCtx, client := failClient, definition := greetDef
    rendered_prompt := "Hello, Ada!", vars := [], tools := some [] }

/-- The streaming plan for `greet` on `testRunner`. -/
def greetPlanS : ExecutionPlan :=
  { cache_key := none
    context := greetCtx, client := echoClient, definition := greetDef
    rendered_prompt := "Hello, Ada!", vars := [], tools := some [] }

/-! ### Helper lemmas -/

theorem hooks_never_raise_ok : HooksNeverRaise [okHook] := by
  intro h hm
  simp only [List.mem_singleton] at hm
  subst hm
  exact ⟨fun _ => rfl, fun _ _ => rfl, fun _ _ => rfl⟩

/-- Sorting is invariant under permutation of the input pairs. -/
theorem sortPairs_perm_eq {l1 l2 : List (String × String)} (h : l1.Perm l2) :
    sortPairs l1 = sortPairs l2 :=
  List.eq_of_perm_of_sorted
    (((List.perm_insertionSort pairLe l1).trans h).trans
      (List.perm_insertionSort pairLe l2).symm)
    (List.sorted_insertionSort pairLe l1) (List.sorted_insertionSort pairLe l2)

/-- Equal sorted forms come from permuted inputs. -/
theorem sortPairs_eq_perm {l1 l2 : List (String × String)}
    (h : sortPairs l1 = sortPairs l2) : l1.Perm l2 := by
  have h1 : l1.Perm (sortPairs l1) := (List.perm_insertionSort pairLe l1).symm
  have h2 : (sortPairs l2).Perm l2 := List.perm_insertionSort pairLe l2
  rw [h] at h1
  exact h1.trans h2

/-- Evaluation of `round3` when the value sits strictly below the next
half-thousandth. -/
theorem round3_eq_low (t : ℚ) (f : ℤ) (h1 : (f : ℚ) ≤ t * 1000)
    (h2 : t * 1000 - f < 1 / 2) : round3 t = f := by
  have hfl : ⌊t * 1000⌋ = f := Int.floor_eq_iff.2 ⟨h1, by linarith⟩
  simp only [round3]
  rw [hfl, if_pos h2]

/-- Evaluation of `round3` when the value sits strictly above a
half-thousandth. -/
theorem round3_eq_high (t : ℚ) (f : ℤ) (h1 : (f : ℚ) ≤ t * 1000)
    (h2 : t * 1000 < f + 1) (h3 : 1 / 2 < t * 1000 - f) : round3 t = f + 1 := by
  have hfl : ⌊t * 1000⌋ = f := Int.floor_eq_iff.2 ⟨h1, h2⟩
  simp only [round3]
  rw [hfl, if_neg (by linarith), if_pos h3]

theorem dispatch_before_ok {hooks : List PromptHook} (h : HooksNeverRaise hooks)
    (ctx : HookContext) : dispatch_before hooks ctx = Except.ok () := by
  induction hooks with
  | nil => rfl
  | cons hd tl ih =>
    have hhd := h hd (List.mem_cons_self hd tl)
    have htl : HooksNeverRaise tl := fun x hx => h x (List.mem_cons_of_mem hd hx)
    simp [dispatch_before, hhd.1 ctx, ih htl]

theorem dispatch_after_ok {hooks : List PromptHook} (h : HooksNeverRaise hooks)
    (ctx : HookContext) (resp : LLMResponse) :
    dispatch_after hooks ctx resp = Except.ok () := by
  induction hooks with
  | nil => rfl
  | cons hd tl ih =>
    have hhd := h hd (List.mem_cons_self hd tl)
    have htl : HooksNeverRaise tl := fun x hx => h x (List.mem_cons_of_mem hd hx)
    simp [dispatch_after, hhd.2.1 ctx resp, ih htl]

theorem dispatch_error_ok {hooks : List PromptHook} (h : HooksNeverRaise hooks)
    (ctx : HookContext) (err : PKError) :
    dispatch_error hooks ctx err = Except.ok () := by
  induction hooks with
  | nil => rfl
  | cons hd tl ih =>
    have hhd := h hd (List.mem_cons_self hd tl)
    have htl : HooksNeverRaise tl := fun x hx => h x (List.mem_cons_of_mem hd hx)
    simp [dispatch_error, hhd.2.2 ctx err, ih htl]

theorem assoc_get_cons {κ α : Type} [DecidableEq κ] (kv : κ × α) (rest : List (κ × α))
    (k : κ) :
    assoc_get (kv :: rest) k = if kv.1 = k then some kv.2 else assoc_get rest k := by
  by_cases h : kv.1 = k <;> simp [assoc_get, List.find?_cons, h]

theorem assoc_get_set {κ α : Type} [DecidableEq κ] (s : List (κ × α)) (k : κ) (v : α) :
    assoc_get (assoc_set s k v) k = some v := by
  induction s with
  | nil => simp [assoc_set, assoc_get, List.find?]
  | cons kv rest ih =>
    by_cases h : kv.1 = k
    · simp [assoc_set, h, assoc_get_cons]
    · simp [assoc_set, h, assoc_get_cons, ih]

theorem assoc_get_set_ne {κ α : Type} [DecidableEq κ] (s : List (κ × α)) (k k2 : κ)
    (v : α) (hne : k2 ≠ k) : assoc_get (assoc_set s k v) k2 = assoc_get s k2 := by
  induction s with
  | nil => simp [assoc_set, assoc_get, List.find?, Ne.symm hne]
  | cons kv rest ih =>
    by_cases h : kv.1 = k
    · simp [assoc_set, h, assoc_get_cons, Ne.symm hne]
    · simp [assoc_set, h, assoc_get_cons, ih]

/-- `_build_execution_plan` reads only the loader and the client registry:
the cache store does not influence plan building. -/
theorem build_execution_plan_cache_irrelevant (r : PromptRunner) (c : List (CacheKeyPayload × String))
    (prompt_name : String) (vars : List (String × String))
    (tools : Option (List ToolSpecification)) (streaming : Bool) :
    build_execution_plan { r with cache := c } prompt_name vars tools streaming =
      build_execution_plan r prompt_name vars tools streaming := rfl

/-- A successful non-streaming plan always carries the cache key derived
from the prompt name, the client's model and temperature, the
definition's provider and the normalized variables. -/
theorem build_execution_plan_cache_key {r : PromptRunner} {prompt_name : String}
    {vars : List (String × String)} {tools : Option (List ToolSpecification)}
    {plan : ExecutionPlan}
    (h : build_execution_plan r prompt_name vars tools false = Except.ok plan) :
    plan.cache_key = some (build_key prompt_name plan.client.model
      plan.definition.model.provider plan.client.temperature plan.vars) := by
  unfold build_execution_plan at h
  repeat' split at h
  all_goals try (exfalso; simp_all; done)
  simp only [Except.ok.injEq] at h
  subst h
  rfl

/-! Branch characterizations of `run`: one lemma per control-flow path of
runner.py lines 87–121. -/

theorem run_plan_error {r : PromptRunner} {n : String} {v : List (String × String)}
    {t : Option (List ToolSpecification)} {uc : Bool} {e : PKError}
    (hpb : build_execution_plan r n v t false = Except.error e) :
    run r n v t uc = { result := Except.error e, cache := r.cache, events := [] } := by
  simp [run, hpb]

theorem run_before_error {r : PromptRunner} {n : String} {v : List (String × String)}
    {t : Option (List ToolSpecification)} {uc : Bool} {plan : ExecutionPlan} {e : PKError}
    (hpb : build_execution_plan r n v t false = Except.ok plan)
    (hb : dispatch_before r.hooks plan.context = Except.error e) :
    run r n v t uc =
      { result := Except.error e, cache := r.cache, events := [Event.beforeRun plan.context] } := by
  simp [run, hpb, hb]

theorem run_cache_hit {r : PromptRunner} {n : String} {v : List (String × String)}
    {t : Option (List ToolSpecification)} {plan : ExecutionPlan} {K : CacheKeyPayload}
    {out : String}
    (hpb : build_execution_plan r n v t false = Except.ok plan)
    (hK : plan.cache_key = some K)
    (hb : dispatch_before r.hooks plan.context = Except.ok ())
    (hhit : cache_get r.cache K = some out) :
    run r n v t true =
      { result := Except.ok out, cache := r.cache, events := [Event.beforeRun plan.context] } := by
  simp [run, hpb, hK, hb, hhit]

theorem run_generate_ok_t {r : PromptRunner} {n : String} {v : List (String × String)}
    {t : Option (List ToolSpecification)} {plan : ExecutionPlan} {K : CacheKeyPayload}
    {resp : LLMResponse} {dres : Except PKError Unit}
    (hpb : build_execution_plan r n v t false = Except.ok plan)
    (hK : plan.cache_key = some K)
    (hmiss : cache_get r.cache K = none)
    (hb : dispatch_before r.hooks plan.context = Except.ok ())
    (hgen : plan.client.generate plan.rendered_prompt (tools_argument plan.tools) =
      Except.ok resp)
    (ha : dispatch_after r.hooks plan.context resp = dres) :
    run r n v t true =
      { result := match dres with
          | Except.error e2 => Except.error e2
          | Except.ok _ => Except.ok resp.output
        cache := cache_set r.cache K resp.output
        events := [Event.beforeRun plan.context,
          Event.generateCall plan.rendered_prompt (tools_argument plan.tools),
          Event.afterRun plan.context resp] } := by
  cases dres <;> simp [run, hpb, hK, hmiss, hb, hgen, ha, extract_output, cache_set]

theorem run_generate_ok_f {r : PromptRunner} {n : String} {v : List (String × String)}
    {t : Option (List ToolSpecification)} {plan : ExecutionPlan}
    {resp : LLMResponse} {dres : Except PKError Unit}
    (hpb : build_execution_plan r n v t false = Except.ok plan)
    (hb : dispatch_before r.hooks plan.context = Except.ok ())
    (hgen : plan.client.generate plan.rendered_prompt (tools_argument plan.tools) =
      Except.ok resp)
    (ha : dispatch_after r.hooks plan.context resp = dres) :
    run r n v t false =
      { result := match dres with
          | Except.error e2 => Except.error e2
          | Except.ok _ => Except.ok resp.output
        cache := r.cache
        events := [Event.beforeRun plan.context,
          Event.generateCall plan.rendered_prompt (tools_argument plan.tools),
          Event.afterRun plan.context resp] } := by
  cases dres <;> simp [run, hpb, hb, hgen, ha, extract_output]

theorem run_generate_error_t {r : PromptRunner} {n : String} {v : List (String × String)}
    {t : Option (List ToolSpecification)} {plan : ExecutionPlan} {K : CacheKeyPayload}
    {exc : PKError} {dres : Except PKError Unit}
    (hpb : build_execution_plan r n v t false = Except.ok plan)
    (hK : plan.cache_key = some K)
    (hmiss : cache_get r.cache K = none)
    (hb : dispatch_before r.hooks plan.context = Except.ok ())
    (hgen : plan.client.generate plan.rendered_prompt (tools_argument plan.tools) =
      Except.error exc)
    (hde : dispatch_error r.hooks plan.context exc = dres) :
    run r n v t true =
      { result := match dres with
          | Except.error e2 => Except.error e2
          | Except.ok _ => Except.error exc
        cache := r.cache
        events := [Event.beforeRun plan.context,
          Event.generateCall plan.rendered_prompt (tools_argument plan.tools),
          Event.onError plan.context exc] } := by
  cases dres <;> simp [run, hpb, hK, hmiss, hb, hgen, hde]

theorem run_generate_error_f {r : PromptRunner} {n : String} {v : List (String × String)}
    {t : Option (List ToolSpecification)} {plan : ExecutionPlan}
    {exc : PKError} {dres : Except PKError Unit}
    (hpb : build_execution_plan r n v t false = Except.ok plan)
    (hb : dispatch_before r.hooks plan.context = Except.ok ())
    (hgen : plan.client.generate plan.rendered_prompt (tools_argument plan.tools) =
      Except.error exc)
    (hde : dispatch_error r.hooks plan.context exc = dres) :
    run r n v t false =
      { result := match dres with
          | Except.error e2 => Except.error e2
          | Except.ok _ => Except.error exc
        cache := r.cache
        events := [Event.beforeRun plan.context,
          Event.generateCall plan.rendered_prompt (tools_argument plan.tools),
          Event.onError plan.context exc] } := by
  cases dres <;> simp [run, hpb, hb, hgen, hde]

/-- A successful cached `run` always leaves its output stored under the
plan's cache key (it either found it there or wrote it). -/
theorem run_ok_inversion {r : PromptRunner} {n : String} {v : List (String × String)}
    {t : Option (List ToolSpecification)} {out : String}
    (h : (run r n v t true).result = Except.ok out) :
    ∃ plan K, build_execution_plan r n v t false = Except.ok plan ∧
      plan.cache_key = some K ∧
      dispatch_before r.hooks plan.context = Except.ok () ∧
      cache_get (run r n v t true).cache K = some out := by
  rcases hpb : build_execution_plan r n v t false with e | plan
  · rw [run_plan_error hpb] at h
    exact absurd h (by simp)
  · have hK := build_execution_plan_cache_key hpb
    rcases hb : dispatch_before r.hooks plan.context with e | u
    · rw [run_before_error hpb hb] at h
      exact absurd h (by simp)
    · cases u
      rcases hhit : cache_get r.cache (build_key n plan.client.model
          plan.definition.model.provider plan.client.temperature plan.vars) with _ | val
      · rcases hgen : plan.client.generate plan.rendered_prompt (tools_argument plan.tools)
          with exc | resp
        · rcases hde : dispatch_error r.hooks plan.context exc with e2 | u2 <;>
            rw [run_generate_error_t hpb hK hhit hb hgen hde] at h <;>
            exact absurd h (by simp)
        · rcases ha : dispatch_after r.hooks plan.context resp with e2 | u2
          · rw [run_generate_ok_t hpb hK hhit hb hgen ha] at h
            exact absurd h (by simp)
          · rw [run_generate_ok_t hpb hK hhit hb hgen ha] at h ⊢
            simp only [Except.ok.injEq] at h
            subst h
            exact ⟨plan, _, rfl, hK, hb, by simp [assoc_get_set, cache_get, cache_set]⟩
      · rw [run_cache_hit hpb hK hb hhit] at h ⊢
        simp only [Except.ok.injEq] at h
        subst h
        exact ⟨plan, _, rfl, hK, hb, hhit⟩

/-- With `use_cache=false`, `run` is a pure function of everything but the
cache store: its result and trace do not depend on the store, and the
store comes back unchanged. -/
theorem run_no_cache_char (r : PromptRunner) (n : String) (v : List (String × String))
    (t : Option (List ToolSpecification)) (c2 : List (CacheKeyPayload × String)) :
    run { r with cache := c2 } n v t false =
      { result := (run r n v t false).result, cache := c2
        events := (run r n v t false).events } := by
  have hpb2 : build_execution_plan { r with cache := c2 } n v t false =
      build_execution_plan r n v t false :=
    build_execution_plan_cache_irrelevant r c2 n v t false
  rcases hpb : build_execution_plan r n v t false with e | plan
  · rw [run_plan_error hpb, run_plan_error (hpb2.trans hpb)]
  · rcases hb : dispatch_before r.hooks plan.context with e | u
    · rw [run_before_error hpb hb, run_before_error (hpb2.trans hpb) hb]
    · cases u
      rcases hgen : plan.client.generate plan.rendered_prompt (tools_argument plan.tools)
        with exc | resp
      · rcases hde : dispatch_error r.hooks plan.context exc with e2 | u2 <;>
          rw [run_generate_error_f hpb hb hgen hde,
            run_generate_error_f (hpb2.trans hpb) hb hgen hde]
      · rcases ha : dispatch_after r.hooks plan.context resp with e2 | u2 <;>
          rw [run_generate_ok_f hpb hb hgen ha,
            run_generate_ok_f (hpb2.trans hpb) hb hgen ha]

/-- `run_stream` never touches the cache store. -/
theorem run_stream_exec_cache (g : StreamGen) :
    (run_stream_exec g).cache = g.runner.cache := by
  simp only [run_stream_exec]
  repeat' split
  all_goals rfl

/-! ### The claims -/

/-- C3, as stated, is false: `build_key` keys can differ although the two
temperatures differ by less than one thousandth — `round(·, 3)` has a
rounding boundary strictly inside any interval of width 1/1000.  Here
`0` rounds to `0` thousandths while `1/1024` (an exact binary float)
rounds to `1`. -/
theorem C3_counterexample :
    |(0 : ℚ) - 1 / 1024| < 1 / 1000 ∧
    build_key "p" "m" "pr" 0 [] ≠ build_key "p" "m" "pr" (1 / 1024) [] := by
  constructor
  · rw [zero_sub, abs_neg, abs_of_nonneg (by norm_num)]
    norm_num
  · intro h
    have ht := congrArg CacheKeyPayload.temperature h
    simp only [build_key] at ht
    rw [round3_eq_low 0 0 (by norm_num) (by norm_num),
      round3_eq_high (1 / 1024) 0 (by norm_num) (by norm_num) (by norm_num)] at ht
    exact absurd ht (by norm_num)

/-- C3 (amended): `build_key` is invariant under reordering of the
variables mapping and under temperature differences that do not change
`round(temperature, 3)`; conversely equal keys force equal prompt,
model, provider, rounded temperature and variable mapping (up to
reordering) — so the key differs whenever any of those differs. -/
theorem C3_cache_key_amended (p m pr : String) (t1 t2 : ℚ)
    (v1 v2 : List (String × String)) :
    (v1.Perm v2 → round3 t1 = round3 t2 →
      build_key p m pr t1 v1 = build_key p m pr t2 v2) ∧
    (∀ p2 m2 pr2 : String, build_key p m pr t1 v1 = build_key p2 m2 pr2 t2 v2 →
      p = p2 ∧ m = m2 ∧ pr = pr2 ∧ round3 t1 = round3 t2 ∧ v1.Perm v2) := by
  constructor
  · intro hperm hr
    unfold build_key
    rw [hr, sortPairs_perm_eq hperm]
  · intro p2 m2 pr2 h
    unfold build_key at h
    injection h with h1 h2 h3 h4 h5
    exact ⟨h1, h2, h3, h4, sortPairs_eq_perm h5⟩

/-- Witness for C3 (amended) at a concrete reordered mapping and two
temperatures that agree after rounding (`0.1` and `0.10001`). -/
theorem C3_cache_key_amended_witness :
    ([("b", "2"), ("a", "1")] : List (String × String)).Perm [("a", "1"), ("b", "2")] ∧
    round3 (1 / 10) = round3 (10001 / 100000) ∧
    build_key "p" "m" "pr" (1 / 10) [("b", "2"), ("a", "1")] =
      build_key "p" "m" "pr" (10001 / 100000) [("a", "1"), ("b", "2")] := by
  have hperm : ([("b", "2"), ("a", "1")] : List (String × String)).Perm
      [("a", "1"), ("b", "2")] := List.Perm.swap ("a", "1") ("b", "2") []
  have hr : round3 (1 / 10 : ℚ) = round3 (10001 / 100000) := by
    rw [round3_eq_low (1 / 10) 100 (by norm_num) (by norm_num),
      round3_eq_low (10001 / 100000) 100 (by norm_num) (by norm_num)]
  exact ⟨hperm, hr,
    (C3_cache_key_amended "p" "m" "pr" (1 / 10) (10001 / 100000)
      [("b", "2"), ("a", "1")] [("a", "1"), ("b", "2")]).1 hperm hr⟩

/-- C8: `register_client` stores the client under
`provider.strip().lower()` without touching other keys, fails with the
provider-key error when the normalized key is empty (registry
unmodified), and a second registration normalizing to the same key
silently replaces the first. -/
theorem C8_register_client (clients : List (String × LLMClient)) (provider : String)
    (c : LLMClient) :
    (normalize_provider provider ≠ "" →
      (register_client clients provider c).2 = none ∧
      assoc_get (register_client clients provider c).1 (normalize_provider provider) =
        some c ∧
      (∀ k, k ≠ normalize_provider provider →
        assoc_get (register_client clients provider c).1 k = assoc_get clients k)) ∧
    (normalize_provider provider = "" →
      register_client clients provider c =
        (clients,
          some (PKError.promptProviderError "Provider key must be a non-empty string."))) ∧
    (∀ provider2 c2, normalize_provider provider2 = normalize_provider provider →
      normalize_provider provider ≠ "" →
      assoc_get (register_client (register_client clients provider c).1 provider2 c2).1
        (normalize_provider provider) = some c2) := by
  refine ⟨?_, ?_, ?_⟩
  · intro hne
    refine ⟨?_, ?_, ?_⟩
    · simp only [register_client, if_neg hne]
    · simp only [register_client, if_neg hne]
      exact assoc_get_set clients _ c
    · intro k hk
      simp only [register_client, if_neg hne]
      exact assoc_get_set_ne clients _ k c hk
  · intro he
    simp only [register_client, if_pos he]
  · intro provider2 c2 heq hne
    simp only [register_client, heq, if_neg hne]
    exact assoc_get_set _ _ c2

/-- Witness for C8 on providers `" Prov "`, `"PROV"` and `"  "`. -/
theorem C8_register_client_witness :
    normalize_provider " Prov " ≠ "" ∧
    normalize_provider "PROV" = normalize_provider " Prov " ∧
    normalize_provider "  " = "" ∧
    assoc_get (register_client [] " Prov " echoClient).1 (normalize_provider " Prov ") =
      some echoClient ∧
    register_client [] "  " echoClient =
      ([], some (PKError.promptProviderError "Provider key must be a non-empty string.")) ∧
    assoc_get
      (register_client (register_client [] " Prov " echoClient).1 "PROV" failClient).1
      (normalize_provider " Prov ") = some failClient := by
  have h1 : normalize_provider " Prov " ≠ "" := by decide
  have h2 : normalize_provider "PROV" = normalize_provider " Prov " := by decide
  have h3 : normalize_provider "  " = "" := by decide
  exact ⟨h1, h2, h3, ((C8_register_client [] " Prov " echoClient).1 h1).2.1,
    (C8_register_client [] "  " echoClient).2.1 h3,
    (C8_register_client [] " Prov " echoClient).2.2 "PROV" failClient h2 h1⟩

/-- C4, as stated, is false in one detail: the ValidationError raised for
a structured prompt under streaming carries the message "Streaming is
not supported for structured prompts.", not the claimed "streaming
unsupported for structured prompts".  At a concrete structured prompt
the rejection does happen with no hook and no client interaction, but
with the other message. -/
theorem C4_counterexample :
    run_stream_exec ((run_stream testRunner "structured" [] none).1) =
      { chunks := [], error := some (PKError.promptValidationError
          "Streaming is not supported for structured prompts.")
        cache := [], events := [] } ∧
    PKError.promptValidationError "Streaming is not supported for structured prompts." ≠
      PKError.promptValidationError "streaming unsupported for structured prompts" := by
  exact ⟨rfl, by decide⟩

/-- C4 (amended): for a prompt with `structured=true`, consuming the
`run_stream` iterator fails with `PromptValidationError("Streaming is
not supported for structured prompts.")`, yields no chunk, fires no hook
and performs no client interaction. -/
theorem C4_stream_structured_rejected (r : PromptRunner) (n : String)
    (v : List (String × String)) (t : Option (List ToolSpecification))
    (d : PromptDefinition)
    (hget : r.loader.get n = Except.ok d) (hs : d.model.structured = true) :
    run_stream_exec ((run_stream r n v t).1) =
      { chunks := [], error := some (PKError.promptValidationError
          "Streaming is not supported for structured prompts.")
        cache := r.cache, events := [] } := by
  simp [run_stream_exec, run_stream, build_execution_plan, hget, hs]

/-- Witness for C4 (amended) on the concrete `structured` prompt. -/
theorem C4_stream_structured_rejected_witness :
    testRunner.loader.get "structured" = Except.ok structuredDef ∧
    structuredDef.model.structured = true ∧
    run_stream_exec ((run_stream testRunner "structured" [] none).1) =
      { chunks := [], error := some (PKError.promptValidationError
          "Streaming is not supported for structured prompts.")
        cache := testRunner.cache, events := [] } :=
  ⟨rfl, rfl,
    C4_stream_structured_rejected testRunner "structured" [] none structuredDef rfl rfl⟩

/-- C5: an explicitly provided tools override (even the empty list)
becomes the effective tool list, otherwise the definition's configured
tools do; a non-empty effective list against a client with
`supports_tools=false` fails with the provider error at plan-build time,
so `run` and `run_stream` fire no hook and never reach the client. -/
theorem C5_tools_enforcement (r : PromptRunner) (n : String)
    (v : List (String × String)) (d : PromptDefinition) (c : LLMClient) :
    (∀ ts : List ToolSpecification, c.supports_tools = true ∨ ts = [] →
      resolve_tools d c (some ts) = Except.ok (some ts)) ∧
    (c.supports_tools = true ∨ d.build_tools = [] →
      resolve_tools d c none = Except.ok (some d.build_tools)) ∧
    (∀ ts : List ToolSpecification, ts ≠ [] → c.supports_tools = false →
      resolve_tools d c (some ts) = Except.error (PKError.promptProviderError
        ("Client '" ++ c.model ++ "' does not support tool execution."))) ∧
    (d.build_tools ≠ [] → c.supports_tools = false →
      resolve_tools d c none = Except.error (PKError.promptProviderError
        ("Client '" ++ c.model ++ "' does not support configured tools."))) ∧
    (∀ t e rendered, r.loader.get n = Except.ok d →
      d.render_with v = Except.ok rendered →
      resolve_client r.clients d.model.provider = Except.ok c →
      resolve_tools d c t = Except.error e →
      (∀ uc, run r n v t uc =
        { result := Except.error e, cache := r.cache, events := [] }) ∧
      (d.model.structured = false →
        run_stream_exec ((run_stream r n v t).1) =
          { chunks := [], error := some e, cache := r.cache, events := [] })) := by
  refine ⟨?_, ?_, ?_, ?_, ?_⟩
  · intro ts h
    simp only [resolve_tools]
    rw [if_neg (by rcases h with h | h <;> simp [h])]
  · intro h
    simp only [resolve_tools]
    rw [if_neg (by rcases h with h | h <;> simp [h])]
  · intro ts hne hsup
    simp only [resolve_tools]
    rw [if_pos ⟨hne, hsup⟩]
  · intro hne hsup
    simp only [resolve_tools]
    rw [if_pos ⟨hne, hsup⟩]
  · intro t e rendered hget hrender hclient htools
    have hpbF : build_execution_plan r n v t false = Except.error e := by
      simp [build_execution_plan, hget, hrender, hclient, htools]
    constructor
    · intro uc
      exact run_plan_error hpbF
    · intro hs
      have hpbS : build_execution_plan r n v t true = Except.error e := by
        simp [build_execution_plan, hget, hs, hrender, hclient, htools]
      simp [run_stream_exec, run_stream, hpbS]

/-- Witness for C5: the empty override is accepted against a client
without tool support, a non-empty override is rejected, and on the
concrete runner the rejection happens at plan-build time with no hook
and no client interaction. -/
theorem C5_tools_enforcement_witness :
    resolve_tools greetDef echoClient (some []) = Except.ok (some []) ∧
    resolve_tools greetDef echoClient none = Except.ok (some []) ∧
    resolve_tools greetDef echoClient (some [toolSpec1]) =
      Except.error (PKError.promptProviderError
        ("Client '" ++ echoClient.model ++ "' does not support tool execution.")) ∧
    run testRunner "greet" [] (some [toolSpec1]) true =
      { result := Except.error (PKError.promptProviderError
          ("Client '" ++ echoClient.model ++ "' does not support tool execution."))
        cache := testRunner.cache, events := [] } := by
  have hc := C5_tools_enforcement testRunner "greet" [] greetDef echoClient
  refine ⟨hc.1 [] (Or.inr rfl), hc.2.1 (Or.inr rfl),
    hc.2.2.1 [toolSpec1] (by simp) rfl, ?_⟩
  exact (hc.2.2.2.2 (some [toolSpec1]) _ ("Hello, Ada!", ([] : List (String × String)))
    rfl rfl rfl (hc.2.2.1 [toolSpec1] (by simp) rfl)).1 true

/-- C9: calling `run_stream` performs no observable work — it returns a
generator capturing the arguments and an empty event trace; the plan
build, hooks and any plan-build error (validation, provider resolution)
surface only when the iterator is consumed. -/
theorem C9_run_stream_lazy (r : PromptRunner) (n : String)
    (v : List (String × String)) (t : Option (List ToolSpecification)) :
    (run_stream r n v t).2 = [] ∧
    (run_stream r n v t).1 = { runner := r, prompt_name := n, vars := v, tools := t } ∧
    (∀ e, build_execution_plan r n v t true = Except.error e →
      run_stream_exec ((run_stream r n v t).1) =
        { chunks := [], error := some e, cache := r.cache, events := [] }) := by
  refine ⟨rfl, rfl, ?_⟩
  intro e he
  simp [run_stream_exec, run_stream, he]

/-- Witness for C9: on an unknown prompt name the call itself yields no
event; the loader's error appears only on consumption. -/
theorem C9_run_stream_lazy_witness :
    build_execution_plan testRunner "nope" [] none true =
      Except.error (PKError.promptConfigError "not found") ∧
    (run_stream testRunner "nope" [] none).2 = [] ∧
    run_stream_exec ((run_stream testRunner "nope" [] none).1) =
      { chunks := [], error := some (PKError.promptConfigError "not found")
        cache := testRunner.cache, events := [] } :=
  ⟨rfl, (C9_run_stream_lazy testRunner "nope" [] none).1,
    (C9_run_stream_lazy testRunner "nope" [] none).2.2
      (PKError.promptConfigError "not found") rfl⟩

/-- C1: when no observer raises — if the plan build fails no hook is
dispatched at all; if the plan build succeeds and the client's
`generate` is reached and succeeds, the hook dispatches are exactly one
`before_run` followed by one `after_run` (no `on_error`); if `generate`
raises, they are exactly one `before_run` followed by one `on_error`
(no `after_run`). -/
theorem C1_hook_ordering (r : PromptRunner) (n : String) (v : List (String × String))
    (t : Option (List ToolSpecification)) (uc : Bool) (hnr : HooksNeverRaise r.hooks) :
    (∀ e, build_execution_plan r n v t false = Except.error e →
      (run r n v t uc).events = []) ∧
    (∀ plan resp, build_execution_plan r n v t false = Except.ok plan →
      (uc = true → cache_get r.cache (build_key n plan.client.model
        plan.definition.model.provider plan.client.temperature plan.vars) = none) →
      plan.client.generate plan.rendered_prompt (tools_argument plan.tools) =
        Except.ok resp →
      hookTrace (run r n v t uc).events =
        [Event.beforeRun plan.context, Event.afterRun plan.context resp]) ∧
    (∀ plan exc, build_execution_plan r n v t false = Except.ok plan →
      (uc = true → cache_get r.cache (build_key n plan.client.model
        plan.definition.model.provider plan.client.temperature plan.vars) = none) →
      plan.client.generate plan.rendered_prompt (tools_argument plan.tools) =
        Except.error exc →
      hookTrace (run r n v t uc).events =
        [Event.beforeRun plan.context, Event.onError plan.context exc]) := by
  refine ⟨?_, ?_, ?_⟩
  · intro e he
    rw [run_plan_error he]
  · intro plan resp hpb hmiss hgen
    have hK := build_execution_plan_cache_key hpb
    have hb := dispatch_before_ok hnr plan.context
    have ha := dispatch_after_ok hnr plan.context resp
    cases uc
    · rw [run_generate_ok_f hpb hb hgen ha]
      simp [hookTrace, isHookEvent]
    · rw [run_generate_ok_t hpb hK (hmiss rfl) hb hgen ha]
      simp [hookTrace, isHookEvent]
  · intro plan exc hpb hmiss hgen
    have hK := build_execution_plan_cache_key hpb
    have hb := dispatch_before_ok hnr plan.context
    have hde := dispatch_error_ok hnr plan.context exc
    cases uc
    · rw [run_generate_error_f hpb hb hgen hde]
      simp [hookTrace, isHookEvent]
    · rw [run_generate_error_t hpb hK (hmiss rfl) hb hgen hde]
      simp [hookTrace, isHookEvent]

/-- Witness for C1 on the three concrete scenarios: successful generate
(echo client), failing plan build (unknown prompt), failing generate
(raising client). -/
theorem C1_hook_ordering_witness :
    HooksNeverRaise testRunner.hooks ∧
    hookTrace (run testRunner "greet" [] none true).events =
      [Event.beforeRun greetCtx,
        Event.afterRun greetCtx { reasoning := "echo", output := "Hello, Ada!" }] ∧
    (run testRunner "nope" [] none true).events = [] ∧
    hookTrace (run failRunner "greet" [] none true).events =
      [Event.beforeRun greetCtx, Event.onError greetCtx (PKError.clientError "boom")] := by
  refine ⟨hooks_never_raise_ok, ?_, ?_, ?_⟩
  · exact (C1_hook_ordering testRunner "greet" [] none true hooks_never_raise_ok).2.1
      greetPlan { reasoning := "echo", output := "Hello, Ada!" } rfl (fun _ => rfl) rfl
  · exact (C1_hook_ordering testRunner "nope" [] none true hooks_never_raise_ok).1
      (PKError.promptConfigError "not found") rfl
  · exact (C1_hook_ordering failRunner "greet" [] none true hooks_never_raise_ok).2.2
      failPlan (PKError.clientError "boom") rfl (fun _ => rfl) rfl

/-- C2: on a cache hit with `use_cache=true`, `run` returns the stored
output, the client is never invoked and `after_run` does not fire
(`before_run` still does, and the cache is unchanged); consequently a
second identical call after a successful cached call hits the cache:
it returns the first call's output with no client invocation and no
`after_run`. -/
theorem C2_cache_idempotence (r : PromptRunner) (n : String) (v : List (String × String))
    (t : Option (List ToolSpecification)) :
    (∀ plan K out, build_execution_plan r n v t false = Except.ok plan →
      plan.cache_key = some K →
      dispatch_before r.hooks plan.context = Except.ok () →
      cache_get r.cache K = some out →
      run r n v t true = { result := Except.ok out, cache := r.cache
                           events := [Event.beforeRun plan.context] }) ∧
    (∀ out, (run r n v t true).result = Except.ok out →
      ∃ ctx, run { r with cache := (run r n v t true).cache } n v t true =
        { result := Except.ok out, cache := (run r n v t true).cache
          events := [Event.beforeRun ctx] }) := by
  constructor
  · intro plan K out hpb hK hb hhit
    exact run_cache_hit hpb hK hb hhit
  · intro out h
    obtain ⟨plan, K, hpb, hK, hb, hcache⟩ := run_ok_inversion h
    refine ⟨plan.context, ?_⟩
    have hpb2 : build_execution_plan { r with cache := (run r n v t true).cache } n v t
        false = Except.ok plan := by
      rw [build_execution_plan_cache_irrelevant]
      exact hpb
    exact run_cache_hit hpb2 hK hb hcache

/-- Witness for C2: a pre-populated cache is hit without any client
call, and a successful first call makes the second call a cache hit. -/
theorem C2_cache_idempotence_witness :
    cache_get cachedRunner.cache (build_key "greet" "m1" "prov" 0 []) = some "cached!" ∧
    run cachedRunner "greet" [] none true =
      { result := Except.ok "cached!", cache := cachedRunner.cache
        events := [Event.beforeRun greetCtx] } ∧
    (run testRunner "greet" [] none true).result = Except.ok "Hello, Ada!" ∧
    (∃ ctx, run { testRunner with cache := (run testRunner "greet" [] none true).cache }
        "greet" [] none true =
      { result := Except.ok "Hello, Ada!"
        cache := (run testRunner "greet" [] none true).cache
        events := [Event.beforeRun ctx] }) := by
  have hhit : cache_get cachedRunner.cache (build_key "greet" "m1" "prov" 0 []) =
      some "cached!" :=
    assoc_get_set [] (build_key "greet" "m1" "prov" 0 []) "cached!"
  have h1 : (run testRunner "greet" [] none true).result = Except.ok "Hello, Ada!" := by
    rfl
  exact ⟨hhit,
    (C2_cache_idempotence cachedRunner "greet" [] none).1 greetPlan
      (build_key "greet" "m1" "prov" 0 []) "cached!" rfl rfl rfl hhit,
    h1,
    (C2_cache_idempotence testRunner "greet" [] none).2 "Hello, Ada!" h1⟩

/-- C6: when `generate` raises, `on_error` is dispatched with exactly the
raised exception, the very same exception propagates to the caller, and
`after_run` never fires (the cache is also untouched). -/
theorem C6_error_propagation (r : PromptRunner) (n : String) (v : List (String × String))
    (t : Option (List ToolSpecification)) (uc : Bool) (plan : ExecutionPlan)
    (exc : PKError)
    (hpb : build_execution_plan r n v t false = Except.ok plan)
    (hmiss : uc = true → cache_get r.cache (build_key n plan.client.model
      plan.definition.model.provider plan.client.temperature plan.vars) = none)
    (hb : dispatch_before r.hooks plan.context = Except.ok ())
    (hde : dispatch_error r.hooks plan.context exc = Except.ok ())
    (hgen : plan.client.generate plan.rendered_prompt (tools_argument plan.tools) =
      Except.error exc) :
    (run r n v t uc).result = Except.error exc ∧
    hookTrace (run r n v t uc).events =
      [Event.beforeRun plan.context, Event.onError plan.context exc] ∧
    (run r n v t uc).cache = r.cache := by
  have hK := build_execution_plan_cache_key hpb
  cases uc
  · rw [run_generate_error_f hpb hb hgen hde]
    exact ⟨rfl, by simp [hookTrace, isHookEvent], rfl⟩
  · rw [run_generate_error_t hpb hK (hmiss rfl) hb hgen hde]
    exact ⟨rfl, by simp [hookTrace, isHookEvent], rfl⟩

/-- Witness for C6 on the raising client. -/
theorem C6_error_propagation_witness :
    (run failRunner "greet" [] none true).result =
      Except.error (PKError.clientError "boom") ∧
    hookTrace (run failRunner "greet" [] none true).events =
      [Event.beforeRun greetCtx, Event.onError greetCtx (PKError.clientError "boom")] ∧
    (run failRunner "greet" [] none true).cache = failRunner.cache :=
  C6_error_propagation failRunner "greet" [] none true failPlan
    (PKError.clientError "boom") rfl (fun _ => rfl) rfl rfl rfl

/-- C7: when the client's chunk sequence is exhausted normally,
`after_run` fires exactly once with a response whose `output` is the
concatenation of all yielded chunks and whose `reasoning` is empty; and
no `run_stream` invocation ever writes to the cache. -/
theorem C7_stream_concat (r : PromptRunner) (n : String) (v : List (String × String))
    (t : Option (List ToolSpecification)) (plan : ExecutionPlan) (chunks : List String)
    (hpb : build_execution_plan r n v t true = Except.ok plan)
    (hb : dispatch_before r.hooks plan.context = Except.ok ())
    (hstream : plan.client.stream_generate plan.rendered_prompt
      (tools_argument plan.tools) = (chunks, none))
    (ha : dispatch_after r.hooks plan.context
      { reasoning := "", output := String.join chunks } = Except.ok ()) :
    run_stream_exec ((run_stream r n v t).1) =
      { chunks := chunks, error := none, cache := r.cache
        events := [Event.beforeRun plan.context,
          Event.streamCall plan.rendered_prompt (tools_argument plan.tools),
          Event.afterRun plan.context
            { reasoning := "", output := String.join chunks }] } ∧
    (∀ g : StreamGen, (run_stream_exec g).cache = g.runner.cache) := by
  constructor
  · simp [run_stream_exec, run_stream, hpb, hb, hstream, ha]
  · exact run_stream_exec_cache

/-- Witness for C7: one streamed chunk, synthesized response, untouched
cache. -/
theorem C7_stream_concat_witness :
    run_stream_exec ((run_stream testRunner "greet" [] none).1) =
      { chunks := ["Hello, Ada!"], error := none, cache := testRunner.cache
        events := [Event.beforeRun greetCtx, Event.streamCall "Hello, Ada!" (some []),
          Event.afterRun greetCtx
            { reasoning := "", output := String.join ["Hello, Ada!"] }] } :=
  (C7_stream_concat testRunner "greet" [] none greetPlanS ["Hello, Ada!"]
    rfl rfl rfl rfl).1

/-- C10: with `use_cache=false` the cache is neither read nor written —
the store comes back unchanged and the result and trace are independent
of the store's contents — and the client's `generate` is invoked exactly
once whether or not the plan's key is present. -/
theorem C10_no_cache_frame (r : PromptRunner) (n : String) (v : List (String × String))
    (t : Option (List ToolSpecification)) :
    ((run r n v t false).cache = r.cache) ∧
    (∀ c2, (run { r with cache := c2 } n v t false).result =
        (run r n v t false).result ∧
      (run { r with cache := c2 } n v t false).events = (run r n v t false).events) ∧
    (∀ plan, build_execution_plan r n v t false = Except.ok plan →
      dispatch_before r.hooks plan.context = Except.ok () →
      generateCount (run r n v t false).events = 1) := by
  refine ⟨?_, ?_, ?_⟩
  · exact congrArg RunOutcome.cache (run_no_cache_char r n v t r.cache)
  · intro c2
    rw [run_no_cache_char r n v t c2]
    exact ⟨rfl, rfl⟩
  · intro plan hpb hb
    rcases hgen : plan.client.generate plan.rendered_prompt (tools_argument plan.tools)
      with exc | resp
    · rcases hde : dispatch_error r.hooks plan.context exc with e2 | u2 <;>
        rw [run_generate_error_f hpb hb hgen hde] <;>
        simp [generateCount]
    · rcases ha : dispatch_after r.hooks plan.context resp with e2 | u2 <;>
        rw [run_generate_ok_f hpb hb hgen ha] <;>
        simp [generateCount]

/-- Witness for C10: with `use_cache=false` the pre-populated cache is
ignored (unchanged, and the client still called once), as on the empty
cache. -/
theorem C10_no_cache_frame_witness :
    (run cachedRunner "greet" [] none false).cache = cachedRunner.cache ∧
    generateCount (run cachedRunner "greet" [] none false).events = 1 ∧
    generateCount (run testRunner "greet" [] none false).events = 1 :=
  ⟨(C10_no_cache_frame cachedRunner "greet" [] none).1,
    (C10_no_cache_frame cachedRunner "greet" [] none).2.2 greetPlan rfl rfl,
    (C10_no_cache_frame testRunner "greet" [] none).2.2 greetPlan rfl rfl⟩

end PromptKit
